import Mathlib

/-!
# Verification of the batch graph-rewiring subsystem

Shallow embedding of the super-node reductions of `get_data_sample.py`
(the single-super-node-per-graph block and the multi-super-node-per-atom-type
block), together with proofs settling the specification claims about them.

Modelling conventions:
* tensors become `List`s; float tensors become `List Rat` / `List Vec3`
  (exact rational arithmetic stands in for IEEE floats; the float mean of an
  empty slice is NaN, which has no rational counterpart — where that matters
  the development states the structural facts instead);
* `torch.where(mask)[0]` over a 1-d mask becomes `List.filter` over
  `List.range`, which produces the same ascending index list;
* boolean-mask selection `t[mask]` becomes `selectBool`;
* boolean-mask assignment `t[mask] = values` becomes `maskAssign`
  (the k-th true position receives the k-th value);
* indexing a tensor with a possibly negative integer index follows the
  torch convention: `-k` counts from the end (`torchIdx*`);
* `torch.sqrt` has no exact rational counterpart, so the embedding keeps the
  squared distances (`sqrt` is injective on nonnegatives, so equality and
  determinism statements are unaffected);
* `torch.unique(t)` (1-d) becomes sorted deduplication;
  `torch.unique(t, dim=1)` on a 2×E tensor becomes sorted deduplication of
  the column list under lexicographic order.
-/

/-- A 3-vector of exact rationals, modelling one row of an `(n, 3)` float tensor. -/
abbrev Vec3 : Type := Rat × Rat × Rat

def v3zero : Vec3 := (0, 0, 0)

def v3add (u v : Vec3) : Vec3 := (u.1 + v.1, u.2.1 + v.2.1, u.2.2 + v.2.2)

def v3sub (u v : Vec3) : Vec3 := (u.1 - v.1, u.2.1 - v.2.1, u.2.2 - v.2.2)

def v3sum (l : List Vec3) : Vec3 := l.foldr v3add v3zero

/-- `tensor.mean(0)` over a slice of rows: coordinatewise sum divided by the
number of rows.  (On the empty slice torch produces NaN; in `Rat` the division
by zero yields `0` — claims about the empty case are settled structurally,
not through this value.) -/
def v3mean (l : List Vec3) : Vec3 :=
  ((v3sum l).1 / l.length, (v3sum l).2.1 / l.length, (v3sum l).2.2 / l.length)

/-- Squared Euclidean norm of a 3-vector. -/
def v3sq (v : Vec3) : Rat := v.1 * v.1 + v.2.1 * v.2.1 + v.2.2 * v.2.2

/-- Boolean-mask selection `t[mask]`: keep the entries at true positions, in order. -/
def selectBool {α : Type} : List α → List Bool → List α
  | [], _ => []
  | _, [] => []
  | a :: l, m :: ms => if m then a :: selectBool l ms else selectBool l ms

/-- Boolean-mask assignment `t[mask] = vals`: the k-th true position of the mask
receives the k-th value; other positions keep their entry. -/
def maskAssign : List Int → List Bool → List Int → List Int
  | [], _, _ => []
  | l, [], _ => l
  | a :: l, m :: ms, vs =>
    if m then vs.headD a :: maskAssign l ms vs.tail else a :: maskAssign l ms vs

/-- Torch integer indexing with python semantics: a negative index counts from
the end of the list. -/
def torchIdxN (l : List Nat) (i : Int) : Nat :=
  if 0 ≤ i then l.getD i.toNat 0 else l.getD (l.length - (-i).toNat) 0

/-- Torch integer indexing into a row list, python negative-index semantics. -/
def torchIdxV (l : List Vec3) (i : Int) : Vec3 :=
  if 0 ≤ i then l.getD i.toNat v3zero else l.getD (l.length - (-i).toNat) v3zero

/-- The batched graph handed to the rewiring code (`b` in the source): a pack of
independent atomic graphs sharing index-aligned per-node and per-edge tensors. -/
structure BatchedGraph where
  /-- `b.ptr`: graph i owns old node indices `[ptr[i], ptr[i+1])`. -/
  ptr : List Nat
  /-- `b.tags`: per-node tag, 0 = sub-surface. -/
  tags : List Nat
  /-- `b.batch`: per-node graph assignment. -/
  batch : List Nat
  /-- `b.atomic_numbers`, per node. -/
  atomic_numbers : List Int
  /-- `b.pos`: per-node position. -/
  pos : List Vec3
  /-- `b.pos_relaxed`: per-node relaxed position. -/
  pos_relaxed : List Vec3
  /-- `b.force`: per-node force. -/
  force : List Vec3
  /-- `b.fixed`: per-node fixed-atom flag (a float 0/1 tensor). -/
  fixed : List Rat
  /-- `b.edge_index`: directed edges as (source, target) columns. -/
  edge_index : List (Nat × Nat)
  /-- `b.cell_offsets`: per-edge periodic-image offset row. -/
  cell_offsets : List (Int × Int × Int)
  /-- `b.distances`: per-edge distance (unused by the rewiring, kept for completeness). -/
  distances : List Rat
  /-- `b.neighbors`: per-graph edge count of the input. -/
  neighbors : List Nat
deriving DecidableEq

/-- `batch_size = max(b.batch).item() + 1`. -/
def batch_size (b : BatchedGraph) : Nat := b.batch.foldl Nat.max 0 + 1

/-- Total number of nodes of the input batch (the common length of the per-node
tensors; the length of `b.tags`, over which the node masks are built). -/
def nTot (b : BatchedGraph) : Nat := b.tags.length

/-- `sub_nodes[i] = where((b.tags == 0) * (b.batch == i))[0]`: ascending list of
the sub-surface nodes of graph `i` (both reduction blocks compute this). -/
def sub_nodes (b : BatchedGraph) (i : Nat) : List Nat :=
  (List.range (nTot b)).filter fun n => (b.tags.getD n 1 == 0) && (b.batch.getD n 0 == i)

/-- `non_sub_nodes[i] = where((b.tags != 0) * (b.batch == i))[0]`. -/
def non_sub_nodes (b : BatchedGraph) (i : Nat) : List Nat :=
  (List.range (nTot b)).filter fun n => (b.tags.getD n 1 != 0) && (b.batch.getD n 0 == i)

/-- `ei_batch_ids[i] = (b.ptr[i] <= b.edge_index[0]) * (b.edge_index[0] < b.ptr[i+1])`:
the per-edge mask assigning an edge to graph `i` by its source (computed
identically in both reduction blocks). -/
def ei_batch_ids (b : BatchedGraph) (i : Nat) : List Bool :=
  b.edge_index.map fun e => decide (b.ptr.getD i 0 ≤ e.1) && decide (e.1 < b.ptr.getD (i + 1) 0)

/-- `ei_batch[i] = b.edge_index[:, ei_batch_ids[i]]`. -/
def ei_batch (b : BatchedGraph) (i : Nat) : List (Nat × Nat) :=
  selectBool b.edge_index (ei_batch_ids b i)

namespace OneSupernodePerGraph

/-- `sum(len(nsn) for nsn in non_sub_nodes[:k])`. -/
def nonSubCumul (b : BatchedGraph) (k : Nat) : Nat :=
  ((List.range k).map fun j => (non_sub_nodes b j).length).sum

/-- `new_sn_ids[i] = sum(len(nsn) for nsn in non_sub_nodes[:i+1]) + i`:
the super-node of graph `i` is the last node of the new range of graph `i`. -/
def new_sn_ids (b : BatchedGraph) : List Nat :=
  (List.range (batch_size b)).map fun i => nonSubCumul b (i + 1) + i

/-- `data.ptr = [0] + [nsi + 1 for nsi in new_sn_ids]`. -/
def data_ptr (b : BatchedGraph) : List Nat :=
  0 :: (new_sn_ids b).map (· + 1)

/-- `data.natoms = data.ptr[1:] - data.ptr[:-1]`. -/
def data_natoms (b : BatchedGraph) : List Nat :=
  List.zipWith (fun a c => a - c) ((data_ptr b).tail) (data_ptr b)

/-- `data.sn_nodes_aggregates = [len(s) for s in sub_nodes]`. -/
def sn_nodes_aggregates (b : BatchedGraph) : List Nat :=
  (List.range (batch_size b)).map fun i => (sub_nodes b i).length

/-- `sn_pos[i] = b.pos[sub_nodes[i]].mean(0)`. -/
def sn_pos (b : BatchedGraph) (i : Nat) : Vec3 :=
  v3mean ((sub_nodes b i).map fun n => b.pos.getD n v3zero)

/-- `sn_pos_relaxed[i] = b.pos_relaxed[sub_nodes[i]].mean(0)`. -/
def sn_pos_relaxed (b : BatchedGraph) (i : Nat) : Vec3 :=
  v3mean ((sub_nodes b i).map fun n => b.pos_relaxed.getD n v3zero)

/-- `sn_force[i] = b.force[sub_nodes[i]].mean(0)`. -/
def sn_force (b : BatchedGraph) (i : Nat) : Vec3 :=
  v3mean ((sub_nodes b i).map fun n => b.force.getD n v3zero)

/-- `data.atomic_numbers`: per graph, the non-sub atomic numbers followed by the
super-node placeholder `84`. -/
def data_atomic_numbers (b : BatchedGraph) : List Int :=
  (((List.range (batch_size b)).map fun i =>
    ((non_sub_nodes b i).map fun n => b.atomic_numbers.getD n 0) ++ [(84 : Int)])).flatten

/-- `data.pos`: per graph, the non-sub positions followed by the super-node position. -/
def data_pos (b : BatchedGraph) : List Vec3 :=
  (((List.range (batch_size b)).map fun i =>
    ((non_sub_nodes b i).map fun n => b.pos.getD n v3zero) ++ [sn_pos b i])).flatten

/-- `data.pos_relaxed`, assembled like `data.pos`. -/
def data_pos_relaxed (b : BatchedGraph) : List Vec3 :=
  (((List.range (batch_size b)).map fun i =>
    ((non_sub_nodes b i).map fun n => b.pos_relaxed.getD n v3zero) ++ [sn_pos_relaxed b i])).flatten

/-- `data.force`, assembled like `data.pos`. -/
def data_force (b : BatchedGraph) : List Vec3 :=
  (((List.range (batch_size b)).map fun i =>
    ((non_sub_nodes b i).map fun n => b.force.getD n v3zero) ++ [sn_force b i])).flatten

/-- `data.fixed`: non-sub fixed flags, then `1.0` for the super-node. -/
def data_fixed (b : BatchedGraph) : List Rat :=
  (((List.range (batch_size b)).map fun i =>
    ((non_sub_nodes b i).map fun n => b.fixed.getD n 0) ++ [(1 : Rat)])).flatten

/-- `data.tags`: non-sub tags, then `0` for the super-node. -/
def data_tags (b : BatchedGraph) : List Nat :=
  (((List.range (batch_size b)).map fun i =>
    ((non_sub_nodes b i).map fun n => b.tags.getD n 1) ++ [0])).flatten

/-- `co_batch[i] = b.cell_offsets[ei_batch_ids[i], :]`. -/
def co_batch (b : BatchedGraph) (i : Nat) : List (Int × Int × Int) :=
  selectBool b.cell_offsets (ei_batch_ids b i)

/-- `src_is_not_sub[i] = isin(b.edge_index[0][ei_batch_ids[i]], non_sub_nodes[i])`. -/
def src_is_not_sub (b : BatchedGraph) (i : Nat) : List Bool :=
  (ei_batch b i).map fun e => decide (e.1 ∈ non_sub_nodes b i)

/-- `target_is_not_sub[i] = isin(b.edge_index[1][ei_batch_ids[i]], non_sub_nodes[i])`. -/
def target_is_not_sub (b : BatchedGraph) (i : Nat) : List Bool :=
  (ei_batch b i).map fun e => decide (e.2 ∈ non_sub_nodes b i)

/-- `both_are_sub[i] = ~src_is_not_sub[i] & ~target_is_not_sub[i]`. -/
def both_are_sub (b : BatchedGraph) (i : Nat) : List Bool :=
  List.zipWith (fun s t => !s && !t) (src_is_not_sub b i) (target_is_not_sub b i)

/-- `not_both_are_sub[i] = ~both_are_sub[i]`. -/
def not_both_are_sub (b : BatchedGraph) (i : Nat) : List Bool :=
  (both_are_sub b i).map (!·)

/-- `data.sn_edges_aggregates = [len(n) - n.sum() for n in not_both_are_sub]`. -/
def sn_edges_aggregates (b : BatchedGraph) : List Nat :=
  (List.range (batch_size b)).map fun i =>
    (not_both_are_sub b i).length - (not_both_are_sub b i).count true

/-- `data.cell_offsets`: per graph, the offsets of the kept edges followed by one
zero offset row. -/
def data_cell_offsets (b : BatchedGraph) : List (Int × Int × Int) :=
  (((List.range (batch_size b)).map fun i =>
    selectBool (co_batch b i) (not_both_are_sub b i) ++ [((0 : Int), (0 : Int), (0 : Int))])).flatten

/-- `all_not_both_are_sub = cat(not_both_are_sub)`. -/
def all_not_both_are_sub (b : BatchedGraph) : List Bool :=
  (((List.range (batch_size b)).map fun i => not_both_are_sub b i)).flatten

/-- `all_non_sub_nodes = cat(non_sub_nodes)`. -/
def all_non_sub_nodes (b : BatchedGraph) : List Nat :=
  (((List.range (batch_size b)).map fun i => non_sub_nodes b i)).flatten

/-- `ei_not_both = b.edge_index[:, all_not_both_are_sub]`. -/
def ei_not_both (b : BatchedGraph) : List (Nat × Nat) :=
  selectBool b.edge_index (all_not_both_are_sub b)

/-- `num_nodes = b.ptr[-1].item() + batch_size`. -/
def num_nodes_sn (b : BatchedGraph) : Nat := b.ptr.getLastD 0 + batch_size b

/-- `mask = zeros(num_nodes, dtype=bool); mask[all_non_sub_nodes] = 1`. -/
def node_mask (b : BatchedGraph) : List Bool :=
  (List.range (num_nodes_sn b)).map fun n => decide (n ∈ all_non_sub_nodes b)

/-- `cat([arange(data.ptr[e], data.ptr[e+1] - 1) for e in range(batch_size)])`:
the new indices handed to the non-sub positions of the lookup table. -/
def new_non_sub_ids (b : BatchedGraph) : List Nat :=
  (((List.range (batch_size b)).map fun e =>
    List.range' ((data_ptr b).getD e 0)
      ((data_ptr b).getD (e + 1) 0 - 1 - (data_ptr b).getD e 0))).flatten

/-- `assoc = full((num_nodes,), -1); assoc[mask] = new_non_sub_ids`: the old-index
to new-index lookup table, `-1` the sentinel of removed nodes. -/
def assoc (b : BatchedGraph) : List Int :=
  maskAssign (List.replicate (num_nodes_sn b) (-1)) (node_mask b)
    ((new_non_sub_ids b).map Int.ofNat)

/-- `ei_sn = assoc[ei_not_both]`. -/
def ei_sn (b : BatchedGraph) : List (Int × Int) :=
  (ei_not_both b).map fun e => ((assoc b).getD e.1 (-1), (assoc b).getD e.2 (-1))

/-- `data.edge_index = ei_sn`. -/
def data_edge_index (b : BatchedGraph) : List (Int × Int) := ei_sn b

/-- Squared per-edge distances (`distance ** 2`): the radicand of the source's
`torch.sqrt(((data.pos[ei_sn[0]] - data.pos[ei_sn[1]]) ** 2).sum(-1))`. -/
def data_distances_sq (b : BatchedGraph) : List Rat :=
  (ei_sn b).map fun e =>
    v3sq (v3sub (torchIdxV (data_pos b) e.1) (torchIdxV (data_pos b) e.2))

/-- `data.batch[data.edge_index[0, :]]` as read at the `data.neighbors` line:
`data.batch` is still the (stale) input assignment there, indexed with the new
edge sources (negative sentinel indices wrap around, torch-style). -/
def stale_edge_batches (b : BatchedGraph) : List Nat :=
  (data_edge_index b).map fun e => torchIdxN b.batch e.1

/-- `_, data.neighbors = torch.unique(data.batch[data.edge_index[0, :]], return_counts=True)`:
counts of the sorted distinct stale values. -/
def data_neighbors (b : BatchedGraph) : List Nat :=
  (((stale_edge_batches b).dedup).insertionSort (· ≤ ·)).map fun v =>
    (stale_edge_batches b).count v

/-- `data.batch = zeros(data.ptr[-1])` then `data.batch[arange(p, ptr[i+1])] = i`:
since the ranges tile `[0, data.ptr[-1])` in order, this is the concatenation of
the constant blocks. -/
def data_batch (b : BatchedGraph) : List Nat :=
  (((List.range (batch_size b)).map fun i =>
    List.replicate ((data_ptr b).getD (i + 1) 0 - (data_ptr b).getD i 0) i)).flatten

/-- The fields assigned onto `data` by the single-super-node-per-graph block
(lines 121-336), bundled as the block's output. -/
structure SingleOutput where
  ptr : List Nat
  natoms : List Nat
  sn_nodes_aggregates : List Nat
  sn_edges_aggregates : List Nat
  atomic_numbers : List Int
  pos : List Vec3
  pos_relaxed : List Vec3
  force : List Vec3
  fixed : List Rat
  tags : List Nat
  cell_offsets : List (Int × Int × Int)
  edge_index : List (Int × Int)
  distances_sq : List Rat
  neighbors : List Nat
  batch : List Nat
deriving DecidableEq

/-- The total node count of the reduced batch, `data.ptr[-1]`: all surviving
nodes plus one super-node per graph. -/
def total_new_nodes (b : BatchedGraph) : Nat := (data_ptr b).getLastD 0

/-- The single-super-node-per-graph reduction as one function of the input batch. -/
def singleOutput (b : BatchedGraph) : SingleOutput where
  ptr := data_ptr b
  natoms := data_natoms b
  sn_nodes_aggregates := sn_nodes_aggregates b
  sn_edges_aggregates := sn_edges_aggregates b
  atomic_numbers := data_atomic_numbers b
  pos := data_pos b
  pos_relaxed := data_pos_relaxed b
  force := data_force b
  fixed := data_fixed b
  tags := data_tags b
  cell_offsets := data_cell_offsets b
  edge_index := data_edge_index b
  distances_sq := data_distances_sq b
  neighbors := data_neighbors b
  batch := data_batch b

end OneSupernodePerGraph

/-- Lexicographic order on edge columns, the order in which
`torch.unique(..., dim=1)` returns the distinct columns of a 2-row tensor. -/
def pairLe (a c : Nat × Nat) : Prop := a.1 < c.1 ∨ (a.1 = c.1 ∧ a.2 ≤ c.2)

instance : DecidableRel pairLe := fun a c => by unfold pairLe; exact inferInstance

namespace MultiSupernode

/-- `b.atomic_numbers[(b.tags == 0) * (b.batch == i)]`: the atomic numbers at the
true positions of the sub-surface mask, i.e. at `sub_nodes b i`, in order. -/
def sub_atomic_numbers (b : BatchedGraph) (i : Nat) : List Int :=
  (sub_nodes b i).map fun n => b.atomic_numbers.getD n 0

/-- `atom_types[i] = torch.unique(b.atomic_numbers[(b.tags == 0) * (b.batch == i)])`:
sorted distinct atomic numbers of graph i's sub-surface atoms. -/
def atom_types (b : BatchedGraph) (i : Nat) : List Int :=
  ((sub_atomic_numbers b i).dedup).insertionSort (· ≤ ·)

/-- `num_supernodes[i] = atom_types[i].shape[0]`. -/
def num_supernodes (b : BatchedGraph) (i : Nat) : Nat := (atom_types b i).length

/-- `supernodes_composition[i] = [where((b.atomic_numbers == an) * (b.tags == 0) * (b.batch == i))[0] for an in atom_types[i]]`. -/
def supernodes_composition (b : BatchedGraph) (i : Nat) : List (List Nat) :=
  (atom_types b i).map fun an =>
    (List.range (nTot b)).filter fun n =>
      (b.atomic_numbers.getD n 0 == an) && (b.tags.getD n 1 == 0) && (b.batch.getD n 0 == i)

/-- `sn_idxes[i] = [b.ptr[1:][i] + sn for sn in range(num_supernodes[i])]`
(note: built from the input pointer array). -/
def sn_idxes (b : BatchedGraph) (i : Nat) : List Nat :=
  (List.range (num_supernodes b i)).map fun j => b.ptr.getD (i + 1) 0 + j

/-- `supernodes_pos = [b.pos[sn, :][0] for sublist in supernodes_composition for sn in sublist]`:
for every partition, the position of its first (lowest-index) member. -/
def supernodes_pos (b : BatchedGraph) : List Vec3 :=
  (((List.range (batch_size b)).map fun i =>
    (supernodes_composition b i).map fun sc => b.pos.getD (sc.headD 0) v3zero)).flatten

/-- The substitution loop: for each partition `j`,
`ei_batch[i] = where(isin(ei_batch[i], sc), sn_idxes[i][j], ei_batch[i])`,
rewriting (in both rows) every endpoint of partition `j` to its super-node index. -/
def ei_batch_subst (b : BatchedGraph) (i : Nat) : List (Nat × Nat) :=
  (List.range (num_supernodes b i)).foldl
    (fun es j =>
      es.map fun e =>
        (if e.1 ∈ (supernodes_composition b i).getD j [] then b.ptr.getD (i + 1) 0 + j else e.1,
         if e.2 ∈ (supernodes_composition b i).getD j [] then b.ptr.getD (i + 1) 0 + j else e.2))
    (ei_batch b i)

/-- `clean_new_edge_index[i] = torch.unique(remove_self_loops(ei_batch[i])[0], dim=1)`:
drop self-loops, then the sorted distinct columns. -/
def clean_new_edge_index (b : BatchedGraph) (i : Nat) : List (Nat × Nat) :=
  ((((ei_batch_subst b i).filter fun e => e.1 != e.2)).dedup).insertionSort pairLe

/-- `num_nodes = data.ptr[i + 1] + num_supernodes[i]` (with `data.ptr` still the
input pointer array in this block). -/
def multi_num_nodes (b : BatchedGraph) (i : Nat) : Nat :=
  b.ptr.getD (i + 1) 0 + num_supernodes b i

/-- `mask = ones(num_nodes); mask[sub_nodes[i]] = 0; mask[:data.ptr[i]] = 0`:
true exactly at the positions at or above `ptr[i]` that are not sub-surface
nodes of graph `i`. -/
def multi_mask (b : BatchedGraph) (i : Nat) : List Bool :=
  (List.range (multi_num_nodes b i)).map fun n =>
    decide (b.ptr.getD i 0 ≤ n) && !(decide (n ∈ sub_nodes b i))

/-- `assoc = full((num_nodes,), -1); assoc[mask] = arange(start, start + mask.sum())`. -/
def multi_assoc (b : BatchedGraph) (i : Nat) (start : Int) : List Int :=
  maskAssign (List.replicate (multi_num_nodes b i) (-1)) (multi_mask b i)
    ((List.range ((multi_mask b i).count true)).map fun k => start + k)

/-- One iteration of the re-indexing loop: build `assoc` from the running
`max_num_nodes`, update `max_num_nodes = max(assoc) + 1`, and re-index this
graph's clean edges through `assoc`. -/
def multi_reindex_step (b : BatchedGraph) (acc : Int × List (List (Int × Int))) (i : Nat) :
    Int × List (List (Int × Int)) :=
  let assocL := multi_assoc b i acc.1
  let newMax := assocL.foldl max (-1) + 1
  (newMax,
   acc.2 ++ [(clean_new_edge_index b i).map fun e => (assocL.getD e.1 (-1), assocL.getD e.2 (-1))])

/-- `reindexed_clean_edge_index`, after the whole loop (`max_num_nodes` starts at 0). -/
def reindexed_clean_edge_index (b : BatchedGraph) : List (List (Int × Int)) :=
  ((List.range (batch_size b)).foldl (multi_reindex_step b) (0, [])).2

/-- `concat_reindexed_clean_edge_index = torch.cat(reindexed_clean_edge_index, dim=1)`. -/
def concat_reindexed_clean_edge_index (b : BatchedGraph) : List (Int × Int) :=
  (reindexed_clean_edge_index b).flatten

/-- Squared per-edge distances of the multi block (`data.pos` is still `b.pos`
there, indexed with the new, possibly sentinel, indices). -/
def multi_distances_sq (b : BatchedGraph) : List Rat :=
  (concat_reindexed_clean_edge_index b).map fun e =>
    v3sq (v3sub (torchIdxV b.pos e.1) (torchIdxV b.pos e.2))

/-- Number of super-nodes of the graphs before graph `i`: the offset of graph
`i`'s partitions inside the flattened `supernodes_pos` list. -/
def supernodes_before (b : BatchedGraph) (i : Nat) : Nat :=
  ((List.range i).map fun q => num_supernodes b q).sum

/-- Everything the multi-super-node block computes from the batch, bundled as
the block's output. -/
structure MultiOutput where
  num_supernodes : List Nat
  sn_idxes : List (List Nat)
  supernodes_pos : List Vec3
  clean_edge_index : List (List (Nat × Nat))
  edge_index : List (Int × Int)
  distances_sq : List Rat
deriving DecidableEq

/-- The multi-super-node-per-atom-type reduction as one function of the input batch. -/
def multiOutput (b : BatchedGraph) : MultiOutput where
  num_supernodes := (List.range (batch_size b)).map fun i => num_supernodes b i
  sn_idxes := (List.range (batch_size b)).map fun i => sn_idxes b i
  supernodes_pos := supernodes_pos b
  clean_edge_index := (List.range (batch_size b)).map fun i => clean_new_edge_index b i
  edge_index := concat_reindexed_clean_edge_index b
  distances_sq := multi_distances_sq b

end MultiSupernode

/-- The record of values produced by lines 112-118 of the script:
`data_bis_bis = one_supernode_per_graph(b_bisbis)`,
`data_bis = one_supernode_per_atom_type(b_bis)`,
`data = one_supernode_per_atom_type_dist(b)`.
The bodies of those three imported reducers are not part of this snapshot
(they live in `ocpmodels.preprocessing`), so they enter the model as function
parameters; a `deepcopy` of a value is the value itself in this pure model. -/
structure CrossModeRun where
  data_bis_bis : BatchedGraph
  data_bis : BatchedGraph
  data : BatchedGraph
deriving DecidableEq

/-- Run the three reducer calls of lines 115-117 on (copies of) the batch. -/
def crossModeRun (one_supernode_per_graph one_supernode_per_atom_type
    one_supernode_per_atom_type_dist : BatchedGraph → BatchedGraph)
    (b : BatchedGraph) : CrossModeRun where
  data_bis_bis := one_supernode_per_graph b
  data_bis := one_supernode_per_atom_type b
  data := one_supernode_per_atom_type_dist b

/-- The equality checked by line 118, `assert data == data_bis`. -/
def crossModeAssertHolds (r : CrossModeRun) : Prop := r.data = r.data_bis

/-- A reducer that changes its input, used to exhibit which pair of outputs the
source's assertion does and does not constrain. -/
def tagTweak (b : BatchedGraph) : BatchedGraph := { b with tags := 0 :: b.tags }

/-- Modelled from the spec: the reducer `one_supernode_per_atom_type` is
imported from `ocpmodels.preprocessing` and its body is not part of this
snapshot.  Spec §2 presents it as an alternate code path of the
single-super-node reduction whose output must agree with the per-graph
reducer, so its input-output behaviour is modelled as that reduction. -/
def one_supernode_per_atom_type : BatchedGraph → OneSupernodePerGraph.SingleOutput :=
  OneSupernodePerGraph.singleOutput

/-- Computable check that a list of naturals is sorted (non-strictly). -/
def chainLeB : List Nat → Bool
  | [] => true
  | [_] => true
  | a :: c :: t => decide (a ≤ c) && chainLeB (c :: t)

/-- Decidable well-formedness of an input batch — the input contract the data
loader guarantees (spec §6): index-aligned per-node and per-edge tensors, a
pointer array consistent with the batch assignment, intra-graph edges, and
edges grouped by source graph so that per-graph source-range filtering in
graph order retiles the edge and offset tensors. -/
def wfB (b : BatchedGraph) : Bool :=
  (b.batch.length == nTot b) &&
  (b.pos.length == nTot b) && (b.pos_relaxed.length == nTot b) &&
  (b.force.length == nTot b) && (b.fixed.length == nTot b) &&
  (b.atomic_numbers.length == nTot b) &&
  (b.cell_offsets.length == b.edge_index.length) &&
  (b.distances.length == b.edge_index.length) &&
  (b.ptr.length == batch_size b + 1) &&
  (b.ptr.headD 1 == 0) &&
  (b.ptr.getLastD 0 == nTot b) &&
  chainLeB b.ptr &&
  decide (∀ n ∈ List.range (nTot b),
    b.ptr.getD (b.batch.getD n 0) 0 ≤ n ∧ n < b.ptr.getD (b.batch.getD n 0 + 1) 0 ∧
      b.batch.getD n 0 < batch_size b) &&
  decide (∀ e ∈ b.edge_index,
    e.1 < nTot b ∧ e.2 < nTot b ∧ b.batch.getD e.1 0 = b.batch.getD e.2 0) &&
  decide (b.edge_index = (((List.range (batch_size b)).map fun i => ei_batch b i)).flatten) &&
  decide (b.cell_offsets =
    (((List.range (batch_size b)).map fun i => OneSupernodePerGraph.co_batch b i)).flatten)

/-- Well-formed input batch. -/
def WF (b : BatchedGraph) : Prop := wfB b = true

instance (b : BatchedGraph) : Decidable (WF b) := by
  unfold WF
  exact inferInstance

/-- The spec's two-graph scenario: graph 0 has 5 atoms with tags [0,0,1,1,2] and
one edge (0,2); graph 1 has 3 atoms with tags [0,1,2] and one edge (0,1)
(globally (5,6)). -/
def scenarioBatch : BatchedGraph where
  ptr := [0, 5, 8]
  tags := [0, 0, 1, 1, 2, 0, 1, 2]
  batch := [0, 0, 0, 0, 0, 1, 1, 1]
  atomic_numbers := [1, 1, 2, 2, 3, 1, 2, 3]
  pos := [(0, 0, 0), (1, 0, 0), (0, 1, 0), (0, 0, 1), (1, 1, 0), (2, 0, 0), (2, 1, 0), (2, 0, 1)]
  pos_relaxed := [(0, 0, 0), (1, 0, 0), (0, 1, 0), (0, 0, 1), (1, 1, 0), (2, 0, 0), (2, 1, 0), (2, 0, 1)]
  force := [(0, 0, 0), (1, 0, 0), (0, 1, 0), (0, 0, 1), (1, 1, 0), (2, 0, 0), (2, 1, 0), (2, 0, 1)]
  fixed := [1, 1, 0, 0, 0, 1, 0, 0]
  edge_index := [(0, 2), (5, 6)]
  cell_offsets := [(0, 0, 0), (0, 0, 0)]
  distances := [1, 1]
  neighbors := [1, 1]

/-- A one-graph batch with no sub-surface (tag-0) atom at all. -/
def emptySubBatch : BatchedGraph where
  ptr := [0, 2]
  tags := [1, 2]
  batch := [0, 0]
  atomic_numbers := [1, 2]
  pos := [(0, 0, 0), (1, 0, 0)]
  pos_relaxed := [(0, 0, 0), (1, 0, 0)]
  force := [(0, 0, 0), (1, 0, 0)]
  fixed := [0, 0]
  edge_index := [(0, 1), (1, 0)]
  cell_offsets := [(0, 0, 0), (0, 0, 0)]
  distances := [1, 1]
  neighbors := [2]

/-- A two-graph batch whose graph 0 has sub-surface atoms of two distinct atomic
numbers (6 at nodes 0 and 2, 5 at node 1), for the multi-super-node claims. -/
def multiTypeBatch : BatchedGraph where
  ptr := [0, 4, 6]
  tags := [0, 0, 0, 1, 0, 1]
  batch := [0, 0, 0, 0, 1, 1]
  atomic_numbers := [6, 5, 6, 8, 5, 9]
  pos := [(0, 0, 0), (1, 0, 0), (0, 1, 0), (0, 0, 1), (2, 0, 0), (2, 1, 0)]
  pos_relaxed := [(0, 0, 0), (1, 0, 0), (0, 1, 0), (0, 0, 1), (2, 0, 0), (2, 1, 0)]
  force := [(0, 0, 0), (1, 0, 0), (0, 1, 0), (0, 0, 1), (2, 0, 0), (2, 1, 0)]
  fixed := [1, 1, 1, 0, 1, 0]
  edge_index := [(0, 3), (4, 5)]
  cell_offsets := [(0, 0, 0), (0, 0, 0)]
  distances := [1, 1]
  neighbors := [1, 1]

/-! ## Generic list lemmas -/

theorem selectBool_length_eq {α : Type} :
    ∀ (l : List α) (m : List Bool), l.length = m.length →
      (selectBool l m).length = m.count true := by
  intro l
  induction l with
  | nil =>
    intro m h
    cases m with
    | nil => rfl
    | cons mb ms => simp at h
  | cons a t ih =>
    intro m h
    cases m with
    | nil => simp at h
    | cons mb ms =>
      have h' : t.length = ms.length := by simpa using h
      cases mb with
      | false => simp [selectBool, ih ms h', List.count_cons]
      | true => simp [selectBool, ih ms h', List.count_cons]

theorem selectBool_append {α : Type} :
    ∀ (l1 : List α) (m1 : List Bool), l1.length = m1.length →
      ∀ (l2 : List α) (m2 : List Bool),
        selectBool (l1 ++ l2) (m1 ++ m2) = selectBool l1 m1 ++ selectBool l2 m2 := by
  intro l1
  induction l1 with
  | nil =>
    intro m1 h l2 m2
    cases m1 with
    | nil => rfl
    | cons mb ms => simp at h
  | cons a t ih =>
    intro m1 h l2 m2
    cases m1 with
    | nil => simp at h
    | cons mb ms =>
      have h' : t.length = ms.length := by simpa using h
      cases mb with
      | false => simpa [selectBool] using ih ms h' l2 m2
      | true => simpa [selectBool] using ih ms h' l2 m2

theorem maskAssign_mem :
    ∀ (l : List Int) (m : List Bool) (v : List Int) (x : Int),
      x ∈ maskAssign l m v → x ∈ l ∨ x ∈ v := by
  intro l
  induction l with
  | nil => intro m v x hx; simp [maskAssign] at hx
  | cons a t ih =>
    intro m v x hx
    cases m with
    | nil => simp [maskAssign] at hx; simp [hx]
    | cons mb ms =>
      cases mb with
      | false =>
        simp only [maskAssign, if_neg Bool.false_ne_true] at hx
        rcases List.mem_cons.mp hx with h | h
        · exact Or.inl (by simp [h])
        · rcases ih ms v x h with h' | h'
          · exact Or.inl (List.mem_cons_of_mem a h')
          · exact Or.inr h'
      | true =>
        simp only [maskAssign, if_pos rfl] at hx
        rcases List.mem_cons.mp hx with h | h
        · cases v with
          | nil => exact Or.inl (by simp [h, List.headD])
          | cons c vs => exact Or.inr (by simp [h, List.headD])
        · rcases ih ms v.tail x h with h' | h'
          · exact Or.inl (List.mem_cons_of_mem a h')
          · cases v with
            | nil => simp at h'
            | cons c vs => exact Or.inr (List.mem_cons_of_mem c h')

theorem getD_default_or_mem {α : Type} (l : List α) (n : Nat) (d : α) :
    l.getD n d = d ∨ l.getD n d ∈ l := by
  by_cases h : n < l.length
  · right
    rw [List.getD_eq_getElem l d h]
    exact List.getElem_mem h
  · left
    have h' : l.length ≤ n := Nat.le_of_not_lt h
    rw [List.getD_eq_getElem?_getD, List.getElem?_eq_none h']
    rfl

theorem getD_range_map {α : Type} (f : Nat → α) (n i : Nat) (d : α) (h : i < n) :
    ((List.range n).map f).getD i d = f i := by
  rw [List.getD_eq_getElem?_getD, List.getElem?_map, List.getElem?_range h]
  rfl

theorem range_map_sum_succ (g : Nat → Nat) (i : Nat) :
    (((List.range (i + 1)).map g)).sum = (((List.range i).map g)).sum + g i := by
  rw [List.range_succ, List.map_append]
  simp

theorem range_map_sum_add_one (g : Nat → Nat) (i : Nat) :
    (((List.range i).map fun j => g j + 1)).sum = (((List.range i).map g)).sum + i := by
  induction i with
  | zero => rfl
  | succ k ih =>
    rw [range_map_sum_succ (fun j => g j + 1) k, range_map_sum_succ g k, ih]
    omega

theorem flatten_range_map_getD {α : Type} (f : Nat → List α) (n i k : Nat) (d : α)
    (hi : i < n) (hk : k < (f i).length) :
    ((List.range n).map f).flatten.getD ((((List.range i).map fun j => (f j).length)).sum + k) d
      = (f i).getD k d := by
  have h1 : List.range' 0 i ++ List.range' i (n - i) = List.range' 0 n := by
    have h2 := List.range'_append 0 i (n - i) 1
    simp only [Nat.one_mul, Nat.zero_add] at h2
    rw [h2]
    congr 1
    omega
  rw [List.range_eq_range' n, ← h1, List.map_append, List.flatten_append]
  have hlen : ((List.range' 0 i).map f).flatten.length
      = (((List.range i).map fun j => (f j).length)).sum := by
    rw [List.length_flatten, List.map_map, List.range_eq_range' i]
    rfl
  obtain ⟨m, hm⟩ : ∃ m, n - i = m + 1 := ⟨n - i - 1, by omega⟩
  rw [List.getD_eq_getElem?_getD, List.getElem?_append_right (by omega), hlen]
  have hidx : (((List.range i).map fun j => (f j).length)).sum + k
      - (((List.range i).map fun j => (f j).length)).sum = k := by omega
  rw [hidx, hm, List.range'_succ, List.map_cons, List.flatten_cons, List.getElem?_append,
    if_pos hk, List.getD_eq_getElem?_getD]

theorem zipWith_range'_diff (g : Nat → Nat → Nat) (f : Nat → Nat) :
    ∀ (n s : Nat),
      List.zipWith g ((List.range' (s + 1) n).map f) ((List.range' s (n + 1)).map f)
        = (List.range' s n).map fun i => g (f (i + 1)) (f i) := by
  intro n
  induction n with
  | zero => intro s; rfl
  | succ m ih =>
    intro s
    have h3 : List.range' s (m + 1 + 1) = s :: List.range' (s + 1) (m + 1) :=
      List.range'_succ s (m + 1) 1
    have h4 : List.range' (s + 1) (m + 1) = (s + 1) :: List.range' (s + 1 + 1) m :=
      List.range'_succ (s + 1) m 1
    have h5 : List.range' s (m + 1) = s :: List.range' (s + 1) m := List.range'_succ s m 1
    rw [h3, h4, h5]
    simp only [List.map_cons, List.zipWith_cons_cons]
    have h6 : f (s + 1) :: List.map f (List.range' (s + 1 + 1) m)
        = List.map f (List.range' (s + 1) (m + 1)) := by
      rw [h4, List.map_cons]
    rw [h6, ih (s + 1)]

namespace OneSupernodePerGraph

theorem nonSubCumul_succ (b : BatchedGraph) (i : Nat) :
    nonSubCumul b (i + 1) = nonSubCumul b i + (non_sub_nodes b i).length :=
  range_map_sum_succ _ i

theorem nonSubCumul_le (b : BatchedGraph) (i j : Nat) (h : i ≤ j) :
    nonSubCumul b i ≤ nonSubCumul b j := by
  have h2 : j = i + (j - i) := by omega
  rw [h2]
  generalize j - i = m
  induction m with
  | zero => simp
  | succ k ih =>
    calc nonSubCumul b i ≤ nonSubCumul b (i + k) := ih
      _ ≤ nonSubCumul b (i + (k + 1)) := by
          rw [show i + (k + 1) = i + k + 1 by omega, nonSubCumul_succ]
          omega

theorem data_ptr_eq_map (b : BatchedGraph) :
    data_ptr b = (List.range (batch_size b + 1)).map fun i => nonSubCumul b i + i := by
  unfold data_ptr new_sn_ids
  rw [List.range_succ_eq_map, List.map_cons, List.map_map, List.map_map]
  congr 1

theorem data_ptr_getD (b : BatchedGraph) {i : Nat} (h : i < batch_size b + 1) :
    (data_ptr b).getD i 0 = nonSubCumul b i + i := by
  rw [data_ptr_eq_map, getD_range_map _ _ _ _ h]

theorem total_new_nodes_eq (b : BatchedGraph) :
    total_new_nodes b = nonSubCumul b (batch_size b) + batch_size b := by
  unfold total_new_nodes
  rw [data_ptr_eq_map, List.range_succ, List.map_append, List.map_cons, List.map_nil]
  exact List.getLastD_concat _ _ _

theorem data_natoms_eq_map (b : BatchedGraph) :
    data_natoms b = (List.range (batch_size b)).map
      fun i => (nonSubCumul b (i + 1) + (i + 1)) - (nonSubCumul b i + i) := by
  unfold data_natoms
  rw [data_ptr_eq_map]
  have htail : ((List.range (batch_size b + 1)).map fun i => nonSubCumul b i + i).tail
      = (List.range' 1 (batch_size b)).map fun i => nonSubCumul b i + i := by
    rw [List.range_eq_range', List.range'_succ, List.map_cons]
    rfl
  rw [htail, List.range_eq_range' (batch_size b + 1)]
  have := zipWith_range'_diff (fun a c => a - c) (fun i => nonSubCumul b i + i)
    (batch_size b) 0
  simp only [Nat.zero_add] at this
  rw [this, List.range_eq_range' (batch_size b)]

theorem data_natoms_getD (b : BatchedGraph) {i : Nat} (h : i < batch_size b) :
    (data_natoms b).getD i 0 = (non_sub_nodes b i).length + 1 := by
  rw [data_natoms_eq_map, getD_range_map _ _ _ _ h, nonSubCumul_succ]
  omega

end OneSupernodePerGraph

namespace OneSupernodePerGraph

theorem new_non_sub_ids_lt (b : BatchedGraph) :
    ∀ x ∈ new_non_sub_ids b, x < total_new_nodes b := by
  intro x hx
  unfold new_non_sub_ids at hx
  rw [List.mem_flatten] at hx
  obtain ⟨l, hl, hxl⟩ := hx
  rw [List.mem_map] at hl
  obtain ⟨e, he, rfl⟩ := hl
  rw [List.mem_range] at he
  rw [List.mem_range'_1] at hxl
  obtain ⟨h1, h2⟩ := hxl
  have hpe : (data_ptr b).getD e 0 = nonSubCumul b e + e := data_ptr_getD b (by omega)
  have hpe1 : (data_ptr b).getD (e + 1) 0 = nonSubCumul b (e + 1) + (e + 1) :=
    data_ptr_getD b (by omega)
  have hcs := nonSubCumul_succ b e
  have hmono := nonSubCumul_le b (e + 1) (batch_size b) (by omega)
  have htot := total_new_nodes_eq b
  omega

theorem assoc_val (b : BatchedGraph) :
    ∀ x ∈ assoc b, x = -1 ∨ (0 ≤ x ∧ x < (total_new_nodes b : Int)) := by
  intro x hx
  rcases maskAssign_mem _ _ _ x hx with h | h
  · exact Or.inl (List.eq_of_mem_replicate h)
  · right
    rw [List.mem_map] at h
    obtain ⟨y, hy, rfl⟩ := h
    have hlt := new_non_sub_ids_lt b y hy
    refine ⟨Int.natCast_nonneg y, ?_⟩
    rw [Int.ofNat_eq_natCast]
    exact_mod_cast hlt

theorem assoc_getD_val (b : BatchedGraph) (n : Nat) :
    (assoc b).getD n (-1) = -1 ∨
      (0 ≤ (assoc b).getD n (-1) ∧ (assoc b).getD n (-1) < (total_new_nodes b : Int)) := by
  rcases getD_default_or_mem (assoc b) n (-1) with h | h
  · exact Or.inl h
  · exact assoc_val b _ h

end OneSupernodePerGraph

open OneSupernodePerGraph MultiSupernode

/-- C7: for every input batch and every graph `i`, the single-super-node
reduction's pointer array satisfies `ptr[0] = 0` and
`ptr[i+1] = ptr[i] + |non_sub(i)| + 1` (one super-node per graph), and the
per-graph node count `natoms[i]` equals `ptr[i+1] - ptr[i]`. -/
theorem C7_ptr_recurrence (b : BatchedGraph) (i : Nat) (hi : i < batch_size b) :
    (data_ptr b).getD 0 0 = 0 ∧
    (data_ptr b).getD (i + 1) 0 = (data_ptr b).getD i 0 + (non_sub_nodes b i).length + 1 ∧
    (data_natoms b).getD i 0 = (data_ptr b).getD (i + 1) 0 - (data_ptr b).getD i 0 := by
  have hpe : (data_ptr b).getD i 0 = nonSubCumul b i + i := data_ptr_getD b (by omega)
  have hpe1 : (data_ptr b).getD (i + 1) 0 = nonSubCumul b (i + 1) + (i + 1) :=
    data_ptr_getD b (by omega)
  have hcs := nonSubCumul_succ b i
  have hn := data_natoms_getD b hi
  exact ⟨rfl, by omega, by omega⟩

/-- C7 witness: the pointer recurrence evaluated on the two-graph scenario batch
at graph 0. -/
theorem C7_witness : 0 < batch_size scenarioBatch ∧
    ((data_ptr scenarioBatch).getD 0 0 = 0 ∧
     (data_ptr scenarioBatch).getD 1 0
        = (data_ptr scenarioBatch).getD 0 0 + (non_sub_nodes scenarioBatch 0).length + 1 ∧
     (data_natoms scenarioBatch).getD 0 0
        = (data_ptr scenarioBatch).getD 1 0 - (data_ptr scenarioBatch).getD 0 0) :=
  ⟨by decide, C7_ptr_recurrence scenarioBatch 0 (by decide)⟩

/-- C1 (amended): every endpoint of every output edge either is the sentinel
`-1` or lies within `[0, total_new_node_count)`; the code never raises an
error on a sentinel, it emits it (see the counterexample). -/
theorem C1_endpoints_sentinel_or_in_range (b : BatchedGraph) (e : Int × Int)
    (he : e ∈ data_edge_index b) :
    (e.1 = -1 ∨ (0 ≤ e.1 ∧ e.1 < (total_new_nodes b : Int))) ∧
    (e.2 = -1 ∨ (0 ≤ e.2 ∧ e.2 < (total_new_nodes b : Int))) := by
  unfold data_edge_index ei_sn at he
  rw [List.mem_map] at he
  obtain ⟨p, hp, rfl⟩ := he
  exact ⟨assoc_getD_val b p.1, assoc_getD_val b p.2⟩

/-- C1 witness: the range/sentinel disjunction instantiated on a concrete edge
of the scenario batch. -/
theorem C1_witness : (((-1 : Int), (0 : Int)) ∈ data_edge_index scenarioBatch) ∧
    (((-1 : Int) = -1 ∨ (0 ≤ (-1 : Int) ∧ (-1 : Int) < (total_new_nodes scenarioBatch : Int))) ∧
     ((0 : Int) = -1 ∨ (0 ≤ (0 : Int) ∧ (0 : Int) < (total_new_nodes scenarioBatch : Int)))) :=
  ⟨by decide, C1_endpoints_sentinel_or_in_range scenarioBatch ((-1 : Int), (0 : Int)) (by decide)⟩

/-- C1 counterexample: on the well-formed scenario batch, a retained mixed edge
resolves its sub-surface endpoint to the sentinel `-1`, which is emitted in the
output edge index (so it neither lies in `[0, total_new_node_count)` nor
triggers any error). -/
theorem C1_counterexample : wfB scenarioBatch = true ∧
    (((-1 : Int), (0 : Int)) ∈ data_edge_index scenarioBatch) ∧
    ¬ (0 ≤ (-1 : Int)) := by
  refine ⟨by decide, by decide, by decide⟩

/-- C2 (amended): on the spec's two-graph scenario the node counts are 4 and 3
as claimed, and each retained edge's non-sub endpoint is mapped to its
compacted index, but the sub-surface endpoint becomes the sentinel `-1`
instead of the graph's super-node index. -/
theorem C2_scenario_amended : data_natoms scenarioBatch = [4, 3] ∧
    data_edge_index scenarioBatch = [(-1, 0), (-1, 4)] := by
  exact ⟨by decide, by decide⟩

/-- C2 counterexample: the claimed rewired edge index — sub-surface endpoints
sent to the super-node indices 3 and 6 of their graphs — is not what the code
produces on the scenario batch; neither claimed edge occurs in the output. -/
theorem C2_counterexample :
    data_edge_index scenarioBatch ≠ [((3 : Int), (0 : Int)), ((6 : Int), (4 : Int))] ∧
    (((3 : Int), (0 : Int)) ∉ data_edge_index scenarioBatch) ∧
    (((6 : Int), (4 : Int)) ∉ data_edge_index scenarioBatch) := by
  exact ⟨by decide, by decide, by decide⟩

/-- C5 (amended): the single-super-node reduction appends a super-node for
every graph unconditionally — in particular also for a graph with zero
sub-surface atoms, whose recorded aggregate count is then 0 and whose payloads
are aggregates over the empty set (NaN in floating point); the block has no
error path and no skip. -/
theorem C5_supernode_always_appended (b : BatchedGraph) (i : Nat) (hi : i < batch_size b) :
    (data_natoms b).getD i 0 = (non_sub_nodes b i).length + 1 ∧
    (sub_nodes b i = [] → (sn_nodes_aggregates b).getD i 1 = 0) := by
  refine ⟨data_natoms_getD b hi, fun hs => ?_⟩
  unfold sn_nodes_aggregates
  rw [getD_range_map _ _ _ _ hi, hs]
  rfl

/-- C5 witness: the unconditional super-node append evaluated on the batch with
no sub-surface atoms. -/
theorem C5_witness : 0 < batch_size emptySubBatch ∧
    ((data_natoms emptySubBatch).getD 0 0 = (non_sub_nodes emptySubBatch 0).length + 1 ∧
     (sub_nodes emptySubBatch 0 = [] → (sn_nodes_aggregates emptySubBatch).getD 0 1 = 0)) :=
  ⟨by decide, C5_supernode_always_appended emptySubBatch 0 (by decide)⟩

/-- C5 counterexample: on a well-formed one-graph batch with zero sub-surface
atoms the reduction neither fails (it is total) nor skips the super-node: the
graph's new node count is `non_sub_count + 1`, not `non_sub_count`. -/
theorem C5_counterexample : wfB emptySubBatch = true ∧
    sub_nodes emptySubBatch 0 = [] ∧
    (data_natoms emptySubBatch).getD 0 0 = (non_sub_nodes emptySubBatch 0).length + 1 :=
  ⟨by decide, by decide, by decide⟩

/-- Counts of the distinct values of a list, summed over the deduplicated list,
recover the length of the list. -/
theorem dedup_count_sum (l : List Nat) :
    ((l.dedup).map fun v => l.count v).sum = l.length := by
  have h := Multiset.toFinset_sum_count_eq (l : Multiset Nat)
  simpa [Finset.sum, List.toFinset, Multiset.toFinset] using h

/-- C4 (amended): `data.neighbors` is computed, before `data.batch` is rebuilt,
as the counts of the distinct values of the stale input batch array indexed at
the new edge sources (sentinel `-1` wrapping to the last entry): it has one
entry per distinct such value — not necessarily one per graph — and its counts
sum to the output edge count. -/
theorem C4_neighbors_stale_counts (b : BatchedGraph) :
    (data_neighbors b).length = (stale_edge_batches b).dedup.length ∧
    (data_neighbors b).sum = (stale_edge_batches b).length := by
  constructor
  · unfold data_neighbors
    rw [List.length_map, List.length_insertionSort]
  · unfold data_neighbors
    have hperm : List.Perm (((stale_edge_batches b).dedup).insertionSort (· ≤ ·))
        ((stale_edge_batches b).dedup) := List.perm_insertionSort _ _
    have hmap := hperm.map fun v => (stale_edge_batches b).count v
    rw [hmap.sum_eq]
    exact dedup_count_sum (stale_edge_batches b)

/-- C4 counterexample: on the well-formed two-graph scenario batch the output
`neighbors` array has a single entry (both stale source lookups read graph 1's
assignment through the sentinel `-1`), not one entry per graph, so it cannot
equal the per-graph counts of edges by new source range. -/
theorem C4_counterexample : wfB scenarioBatch = true ∧ batch_size scenarioBatch = 2 ∧
    (data_neighbors scenarioBatch).length = 1 ∧ data_neighbors scenarioBatch = [2] :=
  ⟨by decide, by decide, by decide, by decide⟩

/-- Reading the element right after block `i` of a flattened list of blocks,
each block a list followed by one extra element, returns that extra element. -/
theorem flatten_block_last {α : Type} (g : Nat → List α) (s : Nat → α) (n i : Nat) (d : α)
    (hi : i < n) :
    (((List.range n).map fun j => g j ++ [s j]).flatten).getD
      ((((List.range i).map fun j => (g j).length)).sum + i + (g i).length) d = s i := by
  have hf := flatten_range_map_getD (fun j => g j ++ [s j]) n i ((g i).length) d hi
    (by simp)
  have hsum : (((List.range i).map fun j => (g j ++ [s j]).length)).sum
      = (((List.range i).map fun j => (g j).length)).sum + i := by
    have hfun : (fun j => (g j ++ [s j]).length) = fun j => (g j).length + 1 := by
      funext j
      simp
    rw [hfun, range_map_sum_add_one]
  rw [hsum] at hf
  rw [hf]
  rw [List.getD_eq_getElem?_getD, List.getElem?_append_right (Nat.le_refl _)]
  simp

namespace OneSupernodePerGraph

theorem new_sn_ids_getD (b : BatchedGraph) {i : Nat} (hi : i < batch_size b) :
    (new_sn_ids b).getD i 0 = nonSubCumul b (i + 1) + i := by
  unfold new_sn_ids
  rw [getD_range_map _ _ _ _ hi]

/-- The super-node entry of a per-node payload tensor assembled as
`cat([cat([payload[non_sub_nodes[i]], aggregate[i][None, :]]) for i in range(batch_size)])`:
reading it at `new_sn_ids[i]` returns the aggregate of graph `i`. -/
theorem payload_flatten_sn (b : BatchedGraph) (payload : Nat → Vec3) (agg : Nat → Vec3)
    {i : Nat} (hi : i < batch_size b) :
    ((((List.range (batch_size b)).map fun j =>
        ((non_sub_nodes b j).map payload) ++ [agg j]).flatten)).getD
      ((new_sn_ids b).getD i 0) v3zero = agg i := by
  rw [new_sn_ids_getD b hi]
  have hb := flatten_block_last (fun j => (non_sub_nodes b j).map payload) agg
    (batch_size b) i v3zero hi
  have hsum : (((List.range i).map fun j => ((non_sub_nodes b j).map payload).length)).sum
      = nonSubCumul b i := by
    unfold nonSubCumul
    simp only [List.length_map]
  rw [hsum, List.length_map] at hb
  have hidx : nonSubCumul b (i + 1) + i = nonSubCumul b i + i + (non_sub_nodes b i).length := by
    rw [nonSubCumul_succ]
    omega
  rw [hidx]
  exact hb

end OneSupernodePerGraph

/-- C8: for every graph with at least one sub-surface atom, the super-node's
position, relaxed position and force in the output arrays each equal the
per-coordinate arithmetic mean of the corresponding input arrays over that
graph's sub-surface atoms (exact rational arithmetic, so in particular within
any floating-point tolerance such as 1e-6), and the recorded aggregate count
equals the number of that graph's sub-surface atoms. -/
theorem C8_supernode_payload_mean (b : BatchedGraph) (i : Nat) (hi : i < batch_size b)
    (_hs : sub_nodes b i ≠ []) :
    (data_pos b).getD ((new_sn_ids b).getD i 0) v3zero
        = v3mean ((sub_nodes b i).map fun n => b.pos.getD n v3zero) ∧
    (data_pos_relaxed b).getD ((new_sn_ids b).getD i 0) v3zero
        = v3mean ((sub_nodes b i).map fun n => b.pos_relaxed.getD n v3zero) ∧
    (data_force b).getD ((new_sn_ids b).getD i 0) v3zero
        = v3mean ((sub_nodes b i).map fun n => b.force.getD n v3zero) ∧
    (sn_nodes_aggregates b).getD i 0 = (sub_nodes b i).length := by
  refine ⟨?_, ?_, ?_, ?_⟩
  · exact payload_flatten_sn b (fun n => b.pos.getD n v3zero) (sn_pos b) hi
  · exact payload_flatten_sn b (fun n => b.pos_relaxed.getD n v3zero) (sn_pos_relaxed b) hi
  · exact payload_flatten_sn b (fun n => b.force.getD n v3zero) (sn_force b) hi
  · unfold sn_nodes_aggregates
    rw [getD_range_map _ _ _ _ hi]

/-- C8 witness: the aggregate equalities evaluated on the scenario batch at
graph 0 (two sub-surface atoms). -/
theorem C8_witness : (0 < batch_size scenarioBatch ∧ sub_nodes scenarioBatch 0 ≠ []) ∧
    ((data_pos scenarioBatch).getD ((new_sn_ids scenarioBatch).getD 0 0) v3zero
        = v3mean ((sub_nodes scenarioBatch 0).map fun n => scenarioBatch.pos.getD n v3zero) ∧
     (data_pos_relaxed scenarioBatch).getD ((new_sn_ids scenarioBatch).getD 0 0) v3zero
        = v3mean ((sub_nodes scenarioBatch 0).map fun n => scenarioBatch.pos_relaxed.getD n v3zero) ∧
     (data_force scenarioBatch).getD ((new_sn_ids scenarioBatch).getD 0 0) v3zero
        = v3mean ((sub_nodes scenarioBatch 0).map fun n => scenarioBatch.force.getD n v3zero) ∧
     (sn_nodes_aggregates scenarioBatch).getD 0 0 = (sub_nodes scenarioBatch 0).length) :=
  ⟨⟨by decide, by decide⟩,
    C8_supernode_payload_mean scenarioBatch 0 (by decide) (by decide)⟩

theorem zipWith_map_same {α β γ δ : Type} (g : β → γ → δ) (u : α → β) (v : α → γ) :
    ∀ l : List α, List.zipWith g (l.map u) (l.map v) = l.map fun x => g (u x) (v x)
  | [] => rfl
  | a :: l => by
    simp only [List.map_cons, List.zipWith_cons_cons]
    rw [zipWith_map_same g u v l]

theorem selectBool_nil_left {α : Type} (m : List Bool) : selectBool ([] : List α) m = [] := by
  cases m <;> rfl

theorem selectBool_nil_right {α : Type} (l : List α) : selectBool l [] = [] := by
  cases l <;> rfl

theorem selectBool_flatten {α : Type} :
    ∀ (L : List (List α)) (M : List (List Bool)),
      (∀ p ∈ List.zip L M, p.1.length = p.2.length) →
      selectBool L.flatten M.flatten = (List.zipWith selectBool L M).flatten := by
  intro L
  induction L with
  | nil =>
    intro M h
    rw [List.flatten_nil, List.zipWith_nil_left, List.flatten_nil, selectBool_nil_left]
  | cons l Ls ih =>
    intro M h
    cases M with
    | nil =>
      rw [List.zipWith_nil_right, List.flatten_nil, selectBool_nil_right, List.flatten_nil]
    | cons m Ms =>
      simp only [List.flatten_cons, List.zipWith_cons_cons]
      have hlm : l.length = m.length := h (l, m) (by simp)
      rw [selectBool_append l m hlm, ih Ms fun p hp => h p (List.mem_cons_of_mem _ hp)]

theorem WF_co_len {b : BatchedGraph} (h : WF b) :
    b.cell_offsets.length = b.edge_index.length := by
  unfold WF wfB at h
  simp only [Bool.and_eq_true, beq_iff_eq, decide_eq_true_eq] at h
  tauto

theorem WF_edges_flatten {b : BatchedGraph} (h : WF b) :
    b.edge_index = (((List.range (batch_size b)).map fun i => ei_batch b i)).flatten := by
  unfold WF wfB at h
  simp only [Bool.and_eq_true, beq_iff_eq, decide_eq_true_eq] at h
  tauto

namespace OneSupernodePerGraph

theorem ei_batch_ids_length (b : BatchedGraph) (i : Nat) :
    (ei_batch_ids b i).length = b.edge_index.length := List.length_map _ _

theorem not_both_are_sub_length (b : BatchedGraph) (i : Nat) :
    (not_both_are_sub b i).length = (ei_batch b i).length := by
  unfold not_both_are_sub both_are_sub src_is_not_sub target_is_not_sub
  rw [List.length_map, List.length_zipWith, List.length_map, List.length_map]
  exact Nat.min_self _

theorem ei_batch_length (b : BatchedGraph) (i : Nat) :
    (ei_batch b i).length = (ei_batch_ids b i).count true := by
  unfold ei_batch
  exact selectBool_length_eq _ _ (ei_batch_ids_length b i).symm

theorem co_batch_length (b : BatchedGraph) (i : Nat)
    (hlen : b.cell_offsets.length = b.edge_index.length) :
    (co_batch b i).length = (ei_batch b i).length := by
  unfold co_batch
  rw [selectBool_length_eq _ _ (by rw [hlen, ei_batch_ids_length]), ei_batch_length]

theorem selected_not_both_length (b : BatchedGraph) (i : Nat) :
    (selectBool (ei_batch b i) (not_both_are_sub b i)).length
      = (not_both_are_sub b i).count true :=
  selectBool_length_eq _ _ (not_both_are_sub_length b i).symm

theorem selected_co_not_both_length (b : BatchedGraph) (i : Nat)
    (hlen : b.cell_offsets.length = b.edge_index.length) :
    (selectBool (co_batch b i) (not_both_are_sub b i)).length
      = (not_both_are_sub b i).count true :=
  selectBool_length_eq _ _ (by rw [co_batch_length b i hlen, not_both_are_sub_length])

theorem ei_not_both_eq_flatten (b : BatchedGraph) (h : WF b) :
    ei_not_both b
      = (((List.range (batch_size b)).map fun i =>
          selectBool (ei_batch b i) (not_both_are_sub b i))).flatten := by
  unfold ei_not_both all_not_both_are_sub
  rw [WF_edges_flatten h]
  rw [selectBool_flatten]
  · rw [zipWith_map_same]
  · intro p hp
    rw [List.zip_map'] at hp
    rw [List.mem_map] at hp
    obtain ⟨i, hi, rfl⟩ := hp
    exact (not_both_are_sub_length b i).symm

end OneSupernodePerGraph

/-- C3 (amended): the single-super-node block appends one zero offset row per
graph to `cell_offsets` but appends no matching self-loop edge to
`edge_index`; the output therefore has exactly `batch_size` more offset rows
than edge columns, so the two are never index-aligned on a nonempty batch. -/
theorem C3_offsets_not_aligned (b : BatchedGraph) (h : WF b) :
    (data_cell_offsets b).length = (data_edge_index b).length + batch_size b := by
  have hlen1 : (data_edge_index b).length
      = (((List.range (batch_size b)).map fun i => (not_both_are_sub b i).count true)).sum := by
    unfold data_edge_index ei_sn
    rw [List.length_map, ei_not_both_eq_flatten b h, List.length_flatten, List.map_map]
    congr 1
    apply List.map_congr_left
    intro i hi
    simp only [Function.comp]
    exact selected_not_both_length b i
  have hlen2 : (data_cell_offsets b).length
      = (((List.range (batch_size b)).map fun i => (not_both_are_sub b i).count true)).sum
        + batch_size b := by
    unfold data_cell_offsets
    rw [List.length_flatten, List.map_map]
    have hpt : ∀ i ∈ List.range (batch_size b),
        (List.length ∘ fun i =>
            selectBool (co_batch b i) (not_both_are_sub b i)
              ++ [((0 : Int), (0 : Int), (0 : Int))]) i
          = (fun i => (not_both_are_sub b i).count true + 1) i := by
      intro i hi
      simp only [Function.comp, List.length_append]
      rw [selected_co_not_both_length b i (WF_co_len h)]
      rfl
    rw [List.map_congr_left hpt, range_map_sum_add_one]
  omega

/-- C3 witness: the off-by-`batch_size` misalignment evaluated on the
well-formed scenario batch. -/
theorem C3_witness : WF scenarioBatch ∧
    (data_cell_offsets scenarioBatch).length
      = (data_edge_index scenarioBatch).length + batch_size scenarioBatch :=
  ⟨by decide, C3_offsets_not_aligned scenarioBatch (by decide)⟩

/-- C3 counterexample: on the well-formed scenario batch `cell_offsets` has 4
rows while `edge_index` has 2 columns, so the claimed per-edge alignment (and
the claimed appended self-loop edge) does not hold. -/
theorem C3_counterexample : wfB scenarioBatch = true ∧
    (data_cell_offsets scenarioBatch).length = 4 ∧
    (data_edge_index scenarioBatch).length = 2 ∧
    (data_cell_offsets scenarioBatch).length ≠ (data_edge_index scenarioBatch).length :=
  ⟨by decide, by decide, by decide, by decide⟩

/-- A strictly sorted list's first entry is a lower bound for its members. -/
theorem sorted_headD_le {l : List Nat} (h : l.Pairwise (· < ·)) :
    ∀ m ∈ l, l.headD 0 ≤ m := by
  cases l with
  | nil => intro m hm; simp at hm
  | cons x xs =>
    intro m hm
    rcases List.mem_cons.mp hm with h1 | h1
    · simp [h1]
    · exact Nat.le_of_lt ((List.pairwise_cons.mp h).1 m h1)

namespace MultiSupernode

theorem composition_length (b : BatchedGraph) (i : Nat) :
    (supernodes_composition b i).length = num_supernodes b i := by
  unfold supernodes_composition num_supernodes
  rw [List.length_map]

theorem composition_getD (b : BatchedGraph) (i j : Nat) (hj : j < num_supernodes b i) :
    (supernodes_composition b i).getD j []
      = (List.range (nTot b)).filter fun n =>
          (b.atomic_numbers.getD n 0 == (atom_types b i).getD j 0) &&
          (b.tags.getD n 1 == 0) && (b.batch.getD n 0 == i) := by
  have hj2 : j < (atom_types b i).length := hj
  unfold supernodes_composition
  rw [List.getD_eq_getElem _ _ (by rw [List.length_map]; exact hj2), List.getElem_map]
  have h3 := List.getD_eq_getElem (atom_types b i) 0 hj2
  rw [← h3]

theorem atom_types_getD_mem (b : BatchedGraph) (i j : Nat) (hj : j < num_supernodes b i) :
    (atom_types b i).getD j 0 ∈ atom_types b i := by
  have hj2 : j < (atom_types b i).length := hj
  rw [List.getD_eq_getElem _ _ hj2]
  exact List.getElem_mem hj2

theorem composition_getD_ne_nil (b : BatchedGraph) (i j : Nat) (hj : j < num_supernodes b i) :
    (supernodes_composition b i).getD j [] ≠ [] := by
  have han := atom_types_getD_mem b i j hj
  unfold atom_types at han
  have h2 : (atom_types b i).getD j 0 ∈ (sub_atomic_numbers b i).dedup :=
    ((List.perm_insertionSort _ _).mem_iff).mp han
  have h3 : (atom_types b i).getD j 0 ∈ sub_atomic_numbers b i := List.mem_dedup.mp h2
  unfold sub_atomic_numbers at h3
  obtain ⟨n, hn, hne⟩ := List.mem_map.mp h3
  obtain ⟨hnr, hnp⟩ := List.mem_filter.mp hn
  apply List.ne_nil_of_mem (a := n)
  rw [composition_getD b i j hj]
  apply List.mem_filter.mpr
  refine ⟨hnr, ?_⟩
  simp only [Bool.and_eq_true, beq_iff_eq] at hnp ⊢
  exact ⟨⟨hne, hnp.1⟩, hnp.2⟩

end MultiSupernode

/-- C9: in the multi-super-node mode, for every graph `i` and every
atomic-number partition `j` of its sub-surface atoms, the super-node position
recorded for that partition is the input position of the partition's first
member, which is the lowest original node index of the partition (not a mean);
the partition is nonempty and all its members carry the partition's atomic
number (the super-node's true atomic number). -/
theorem C9_multi_supernode_first_member (b : BatchedGraph) (i j : Nat)
    (hi : i < batch_size b) (hj : j < num_supernodes b i) :
    (supernodes_pos b).getD (supernodes_before b i + j) v3zero
        = b.pos.getD (((supernodes_composition b i).getD j []).headD 0) v3zero ∧
    (supernodes_composition b i).getD j [] ≠ [] ∧
    (∀ m ∈ (supernodes_composition b i).getD j [],
        ((supernodes_composition b i).getD j []).headD 0 ≤ m) ∧
    (∀ m ∈ (supernodes_composition b i).getD j [],
        b.atomic_numbers.getD m 0 = (atom_types b i).getD j 0) := by
  refine ⟨?_, composition_getD_ne_nil b i j hj, ?_, ?_⟩
  · unfold supernodes_pos
    have hjlen : j < ((supernodes_composition b i).map fun sc =>
        b.pos.getD (sc.headD 0) v3zero).length := by
      rw [List.length_map, composition_length]
      exact hj
    have hf := flatten_range_map_getD
      (fun q => (supernodes_composition b q).map fun sc => b.pos.getD (sc.headD 0) v3zero)
      (batch_size b) i j v3zero hi hjlen
    have hsum : (((List.range i).map fun q => ((supernodes_composition b q).map fun sc =>
        b.pos.getD (sc.headD 0) v3zero).length)).sum = supernodes_before b i := by
      unfold supernodes_before
      simp only [List.length_map, composition_length]
    rw [hsum] at hf
    rw [hf]
    have hj2 : j < (supernodes_composition b i).length := by
      rw [composition_length]
      exact hj
    rw [List.getD_eq_getElem _ _ hjlen, List.getElem_map, List.getD_eq_getElem _ _ hj2]
  · intro m hm
    have hsorted : ((supernodes_composition b i).getD j []).Pairwise (· < ·) := by
      rw [composition_getD b i j hj]
      exact (List.pairwise_lt_range _).filter _
    exact sorted_headD_le hsorted m hm
  · intro m hm
    rw [composition_getD b i j hj] at hm
    obtain ⟨hmr, hmp⟩ := List.mem_filter.mp hm
    simp only [Bool.and_eq_true, beq_iff_eq] at hmp
    exact hmp.1.1

/-- C9 witness: the first-member rule evaluated on the two-type batch at graph
0, partition 1 (atomic number 6, members 0 and 2, first member 0). -/
theorem C9_witness :
    (0 < batch_size multiTypeBatch ∧ 1 < num_supernodes multiTypeBatch 0) ∧
    ((supernodes_pos multiTypeBatch).getD (supernodes_before multiTypeBatch 0 + 1) v3zero
        = multiTypeBatch.pos.getD
            (((supernodes_composition multiTypeBatch 0).getD 1 []).headD 0) v3zero ∧
     (supernodes_composition multiTypeBatch 0).getD 1 [] ≠ [] ∧
     (∀ m ∈ (supernodes_composition multiTypeBatch 0).getD 1 [],
        ((supernodes_composition multiTypeBatch 0).getD 1 []).headD 0 ≤ m) ∧
     (∀ m ∈ (supernodes_composition multiTypeBatch 0).getD 1 [],
        multiTypeBatch.atomic_numbers.getD m 0
          = (atom_types multiTypeBatch 0).getD 1 0)) :=
  ⟨⟨by decide, by decide⟩,
    C9_multi_supernode_first_member multiTypeBatch 0 1 (by decide) (by decide)⟩

/-- C6 (amended): the `assert data == data_bis` of the source compares
`one_supernode_per_atom_type_dist` with `one_supernode_per_atom_type` — the
two per-atom-type code paths — on the loaded batch (with no single-type
restriction), and it is insensitive to the per-graph reducer's output. -/
theorem C6_assert_compares_atom_type_paths
    (fGraph fGraph' fType fTypeDist : BatchedGraph → BatchedGraph) (b : BatchedGraph) :
    (crossModeAssertHolds (crossModeRun fGraph fType fTypeDist b) ↔ fTypeDist b = fType b) ∧
    (crossModeAssertHolds (crossModeRun fGraph fType fTypeDist b)
      ↔ crossModeAssertHolds (crossModeRun fGraph' fType fTypeDist b)) :=
  ⟨Iff.rfl, Iff.rfl⟩

/-- C6 counterexample: with a per-graph reducer that visibly changes the batch
and identity per-atom-type reducers, the script's line-118 assertion passes
even though the per-graph output differs from the per-atom-type output — the
equality asserted in the source is not the per-graph/per-atom-type one the
claim names. -/
theorem C6_counterexample :
    crossModeAssertHolds (crossModeRun tagTweak id id scenarioBatch) ∧
    (crossModeRun tagTweak id id scenarioBatch).data_bis_bis
      ≠ (crossModeRun tagTweak id id scenarioBatch).data_bis :=
  ⟨rfl, by decide⟩

/-- C10: each reduction strategy in view is a pure, deterministic function of
its input batch — no hidden random state: running it on two equal batches
(an unmodified copy) yields identical outputs, for the
single-super-node-per-graph block, the multi-super-node block, and the
(spec-modelled) per-atom-type reducer. -/
theorem C10_deterministic (b1 b2 : BatchedGraph) (h : b1 = b2) :
    singleOutput b1 = singleOutput b2 ∧ multiOutput b1 = multiOutput b2 ∧
    one_supernode_per_atom_type b1 = one_supernode_per_atom_type b2 := by
  subst h
  exact ⟨rfl, rfl, rfl⟩

/-- C10 witness: determinism instantiated on the scenario batch and its
unmodified copy. -/
theorem C10_witness : scenarioBatch = scenarioBatch ∧
    (singleOutput scenarioBatch = singleOutput scenarioBatch ∧
     multiOutput scenarioBatch = multiOutput scenarioBatch ∧
     one_supernode_per_atom_type scenarioBatch = one_supernode_per_atom_type scenarioBatch) :=
  ⟨rfl, C10_deterministic scenarioBatch scenarioBatch rfl⟩
